import Mathlib

/-
Formal model of the crawler pool management core of the super-scraper
repository (src/src/crawlers.ts).  Pure and stateful fragments of the
TypeScript source are embedded as executable Lean definitions; external
collaborators (the crawlee executor, the response registry living in
responses.ts, the durable queue) are modelled from the specification where
their code is not part of the provided source, each such definition marked
by a doc comment starting with: Modelled from the spec.
-/

namespace SuperScraper

/-- One timing-ledger entry, `TimeMeasure` in the source: an event name and a
wall-clock timestamp in milliseconds (`Date.now()`). -/
structure TimeMeasure where
  event : String
  time : Nat
deriving Repr, DecidableEq

/-- One error-log entry, pushed to `requestDetails.requestErrors` by
`errorHandler` (crawlers.ts lines 64-67) and `failedRequestHandler`
(lines 81-84). -/
structure RequestError where
  attempt : Nat
  errorMessage : String
deriving Repr, DecidableEq

/-- One captured XHR exchange, pushed in the second pre-navigation hook
(crawlers.ts lines 148-155). -/
structure XhrEntry where
  url : String
  statusCode : Nat
  method : String
  requestHeaders : List (String × String)
  headers : List (String × String)
  body : String
deriving Repr, DecidableEq

/-- The `requestDetails` bag of a job, as used by crawlers.ts: accumulated
errors, response headers collected so far (possibly not yet populated, hence
`Option`, matching the `|| \x7b\x7d` guard at line 101), and captured XHR
traffic. -/
structure RequestDetails where
  requestErrors : List RequestError
  responseHeaders : Option (List (String × String))
  xhr : List XhrEntry
deriving Repr, DecidableEq

/-- The fields of `request.userData` that crawlers.ts reads or writes. -/
structure UserData where
  requestDetails : RequestDetails
  jsonResponse : Bool
  inputtedUrl : String
  parsedInputtedParams : String
  timeMeasures : List TimeMeasure
  transparentStatusCode : Bool
  nonbrowserRequestStatus : Option Nat
deriving Repr, DecidableEq

/-- The fields of a crawlee `Request` that crawlers.ts uses. -/
structure Request where
  uniqueKey : String
  url : String
  retryCount : Nat
  skipNavigation : Bool
  userData : UserData
deriving Repr, DecidableEq

/-- The body carried by a result payload: the error object
`\x7b errorMessage \x7d` built at crawlers.ts lines 86-88, or page content
produced by the (out of scope) success handler. -/
inductive ResultBody where
  | err (errorMessage : String)
  | content (value : String)
deriving Repr, DecidableEq

/-- The `VerboseResult` envelope as populated by crawlers.ts lines 96-108. -/
structure VerboseResult where
  body : ResultBody
  cookies : List String
  evaluateResults : List String
  jsScenarioReport : List (String × String)
  headers : List (String × String)
  type : String
  iframes : List String
  xhr : List XhrEntry
  initialStatusCode : Option Nat
  resolvedUrl : String
  screenshot : Option String
deriving Repr, DecidableEq

/-- What gets serialized and handed to `sendErrorResponseById`: either the
structured `VerboseResult` envelope (line 110) or the bare error object
(line 113). -/
inductive Payload where
  | verbose (v : VerboseResult)
  | plainError (errorMessage : String)
deriving Repr, DecidableEq

/-- A call to `sendErrorResponseById(request.uniqueKey, payload, statusCode)`
(crawlers.ts lines 110 and 113). -/
structure SendAction where
  uniqueKey : String
  payload : Payload
  statusCode : Nat
deriving Repr, DecidableEq

/-- JavaScript truthiness of an optional numeric status: `undefined`, `null`
and `0` are falsy. -/
def jsTruthy : Option Nat → Bool
  | some n => n != 0
  | none => false

/-- The `|| null` collapse at crawlers.ts line 90: a missing response or a
zero status both become `null`. -/
def jsOrNull : Option Nat → Option Nat
  | some s => if s = 0 then none else some s
  | none => none

/-- crawlers.ts line 90: `request.skipNavigation ? nonbrowserRequestStatus! :
(response?.status() || null)`. -/
def failedResponseStatusCode (skipNavigation : Bool)
    (nonbrowserRequestStatus : Option Nat) (responseStatus : Option Nat) :
    Option Nat :=
  if skipNavigation then nonbrowserRequestStatus else jsOrNull responseStatus

/-- crawlers.ts lines 91-94: status defaults to 500 and is replaced by the
upstream status exactly when `transparentStatusCode` is set and the upstream
status is truthy. -/
def failedStatusCode (transparentStatusCode : Bool)
    (responseStatusCode : Option Nat) : Nat :=
  if transparentStatusCode && jsTruthy responseStatusCode then
    responseStatusCode.getD 500
  else 500

/-- Appending one entry to a timing ledger; every mutation of `timeMeasures`
in crawlers.ts is a `push` of an event name with `Date.now()`. -/
def pushTimeMeasure (tm : List TimeMeasure) (event : String) (now : Nat) :
    List TimeMeasure :=
  tm ++ [⟨event, now⟩]

/-- `errorHandler` (crawlers.ts lines 57-69): on a failed attempt that will
be retried, push an error timing event and append
`\x7b attempt: retryCount+1, errorMessage \x7d` to the error log. -/
def errorHandler (now : Nat) (req : Request) (errMessage : String) : Request :=
  let ud := req.userData
  { req with
    userData := { ud with
      timeMeasures := pushTimeMeasure ud.timeMeasures "error" now,
      requestDetails := { ud.requestDetails with
        requestErrors := ud.requestDetails.requestErrors ++
          [⟨req.retryCount + 1, errMessage⟩] } } }

/-- The `VerboseResult` built on terminal failure (crawlers.ts lines 96-108).
`pageCookies` is `await page.context().cookies(request.url)`, with the
`|| []` guard of line 98 rendered by `getD`. -/
def failedVerboseResult (errMessage : String) (pageCookies : Option (List String))
    (requestDetails : RequestDetails) (responseStatusCode : Option Nat) :
    VerboseResult :=
  { body := .err errMessage
    cookies := pageCookies.getD []
    evaluateResults := []
    jsScenarioReport := []
    headers := requestDetails.responseHeaders.getD []
    type := "json"
    iframes := []
    xhr := []
    initialStatusCode := responseStatusCode
    resolvedUrl := ""
    screenshot := none }

/-- `failedRequestHandler` (crawlers.ts lines 70-115): append the final error
to the error log, compute the status code, build the payload (structured
envelope when `jsonResponse`, bare error object otherwise) and send it on the
channel registered under the request unique key.  Note that no timing event
is appended here. -/
def failedRequestHandler (req : Request) (responseStatus : Option Nat)
    (pageCookies : Option (List String)) (errMessage : String) :
    Request × SendAction :=
  let ud := req.userData
  let rd := { ud.requestDetails with
    requestErrors := ud.requestDetails.requestErrors ++
      [⟨req.retryCount + 1, errMessage⟩] }
  let responseStatusCode :=
    failedResponseStatusCode req.skipNavigation ud.nonbrowserRequestStatus
      responseStatus
  let statusCode := failedStatusCode ud.transparentStatusCode responseStatusCode
  let payload :=
    if ud.jsonResponse then
      Payload.verbose (failedVerboseResult errMessage pageCookies rd
        responseStatusCode)
    else
      Payload.plainError errMessage
  ({ req with userData := { ud with requestDetails := rd } },
   ⟨req.uniqueKey, payload, statusCode⟩)

/-- Association-list lookup, the model of `Map.get` / `Map.has` on the pool
map and of the registry lookup. -/
def assocFind {κ α : Type} [DecidableEq κ] (k : κ) :
    List (κ × α) → Option α
  | [] => none
  | e :: rest => if e.1 = k then some e.2 else assocFind k rest

/-- Association-list update, the model of `Map.set`: replaces the binding if
the key is present, appends it otherwise. -/
def assocSet {κ α : Type} [DecidableEq κ] (k : κ) (v : α) :
    List (κ × α) → List (κ × α)
  | [] => [(k, v)]
  | e :: rest => if e.1 = k then (k, v) :: rest else e :: assocSet k v rest

/-- Number of registry entries stored under a key. -/
def keyCount (key : String) : List (String × Nat) → Nat
  | [] => 0
  | e :: rest => (if e.1 = key then 1 else 0) + keyCount key rest

/-- Removal of every entry stored under a key. -/
def removeKey (key : String) : List (String × Nat) → List (String × Nat)
  | [] => []
  | e :: rest =>
    if e.1 = key then removeKey key rest else e :: removeKey key rest

/-- Modelled from the spec: `addResponse` lives in src/responses.ts, which is
not part of the provided source.  Section 4.2: register inserts the channel
under the key and fails with DuplicateKeyError if the key is already
present. -/
def register (key : String) (channel : Nat) (st : List (String × Nat)) :
    Except String (List (String × Nat)) :=
  if (assocFind key st).isSome then .error "DuplicateKeyError"
  else .ok (st ++ [(key, channel)])

/-- A write of a payload and status code to a response channel. -/
structure Delivery where
  channel : Nat
  payload : Payload
  statusCode : Nat
deriving Repr, DecidableEq

/-- Modelled from the spec: `sendErrorResponseById` lives in
src/responses.ts, which is not part of the provided source.  Section 4.2:
dispatch looks up and removes the entry, writing to the channel; if the key
is absent it logs and no-ops. -/
def dispatch (key : String) (payload : Payload) (statusCode : Nat)
    (st : List (String × Nat)) : List (String × Nat) × Option Delivery :=
  match assocFind key st with
  | some ch => (removeKey key st, some ⟨ch, payload, statusCode⟩)
  | none => (st, none)

/-- A sequence of dispatch attempts for one key, returning the final registry
state and the number of deliveries actually written. -/
def dispatchAll (key : String) :
    List (Payload × Nat) → List (String × Nat) → List (String × Nat) × Nat
  | [], st => (st, 0)
  | (p, s) :: rest, st =>
    match dispatch key p s st with
    | (st1, d) =>
      match dispatchAll key rest st1 with
      | (st2, n) => (st2, (if d.isSome then 1 else 0) + n)

/-- Outcome of one attempt of a job: the handler returned, or it threw with
an error message. -/
inductive AttemptOutcome where
  | ok
  | thrown (msg : String)
deriving Repr, DecidableEq

/-- The terminal (or still pending) outcome of driving a job through the
executor. -/
inductive JobResult where
  | succeeded (req : Request)
  | failed (req : Request) (send : SendAction)
  | inFlight (req : Request)
deriving Repr, DecidableEq

/-- `maxRequestRetries: 1` (crawlers.ts line 28). -/
def maxRequestRetries : Nat := 1

/-- The retry-count increment performed by the executor when it requeues a
failed request. -/
def bumpRetry (req : Request) : Request :=
  { req with retryCount := req.retryCount + 1 }

/-- Modelled from the spec: the executor retry loop belongs to the external
browser-automation engine, not to crawlers.ts.  Section 4.3: on a throw the
error is recorded, then the job re-enters the queue while
`retryCount < maxRetries` (invoking `errorHandler`, crawlers.ts lines 57-69)
and otherwise becomes terminally failed (invoking `failedRequestHandler`,
crawlers.ts lines 70-115).  Each attempt outcome carries the wall-clock time
at which its error handling runs. -/
def runJob (responseStatus : Option Nat) (pageCookies : Option (List String)) :
    Request → List (AttemptOutcome × Nat) → JobResult
  | req, [] => .inFlight req
  | req, (.ok, _) :: _ => .succeeded req
  | req, (.thrown msg, t) :: rest =>
    if req.retryCount < maxRequestRetries then
      runJob responseStatus pageCookies (bumpRetry (errorHandler t req msg)) rest
    else
      match failedRequestHandler req responseStatus pageCookies msg with
      | (req2, send) => .failed req2 send

/-- The request carried by a job result. -/
def resultRequest : JobResult → Request
  | .succeeded r => r
  | .failed r _ => r
  | .inFlight r => r

/-- The error log of the request carried by a job result. -/
def resultErrors (r : JobResult) : List RequestError :=
  (resultRequest r).userData.requestDetails.requestErrors

/-- The timing ledger of the request carried by a job result. -/
def resultTimeMeasures (r : JobResult) : List TimeMeasure :=
  (resultRequest r).userData.timeMeasures

/-- The retry count of the request carried by a job result. -/
def resultRetryCount (r : JobResult) : Nat :=
  (resultRequest r).retryCount

/-- Whether a job result is a terminal failure. -/
def resultIsFailed : JobResult → Bool
  | .failed _ _ => true
  | _ => false

/-- The delivery attempt carried by a job result, if any: only terminal
failure produces one. -/
def resultSend : JobResult → Option SendAction
  | .failed _ s => some s
  | _ => none

/-- Number of ledger entries with a given event name. -/
def countEvent (name : String) : List TimeMeasure → Nat
  | [] => 0
  | e :: rest => (if e.event = name then 1 else 0) + countEvent name rest

/-- The shared state of the admission path (crawlers.ts lines 12 and
200-212): the pool map `crawlers` keyed by the serialized configuration, the
per-pool queues, the pending-response registry and the number of pools ever
constructed. -/
structure ServerState where
  crawlers : List (String × Nat)
  queues : List (Nat × List String)
  responses : List (String × Nat)
  poolsCreated : Nat
deriving Repr, DecidableEq

/-- Enqueue a unique key into the queue of a pool; the durable queue
deduplicates by unique key (re-adding a present key is a no-op), as the spec
states for the external queue collaborator. -/
def enqueueKey (pid : Nat) (key : String) :
    List (Nat × List String) → List (Nat × List String)
  | [] => []
  | q :: rest =>
    if q.1 = pid then
      (q.1, if q.2.contains key then q.2 else q.2 ++ [key]) :: rest
    else q :: enqueueKey pid key rest

/-- One in-flight `addRequest` call (crawlers.ts lines 200-212): its
arguments, its program counter and the pool it has resolved.  `createOk`
tells whether `createAndStartCrawler` would succeed for it (proxy
configuration creation, line 23, may throw); `hasUserData` reflects the
optional chaining at line 207. -/
structure AdmProc where
  cfgKey : String
  uniqueKey : String
  channel : Nat
  hasUserData : Bool
  createOk : Bool
  pc : Nat
  poolId : Option Nat
  failed : Bool
deriving Repr, DecidableEq

/-- Observable actions of one admission step. -/
inductive AdmEvent where
  | poolResolved (pid : Nat)
  | poolCreated (pid : Nat)
  | poolRegistered (cfgKey : String) (pid : Nat)
  | creationFailed
  | channelRegistered (key : String)
  | duplicateKey (key : String)
  | timingAppended (event : String)
  | enqueued (pid : Nat) (key : String)
deriving Repr, DecidableEq

/-- A fresh `addRequest` call about to run its first step. -/
def mkAdmProc (cfgKey uniqueKey : String) (channel : Nat)
    (hasUserData createOk : Bool) : AdmProc :=
  { cfgKey := cfgKey, uniqueKey := uniqueKey, channel := channel,
    hasUserData := hasUserData, createOk := createOk, pc := 0,
    poolId := none, failed := false }

/-- The state before any pool or registration exists. -/
def emptyServerState : ServerState :=
  { crawlers := [], queues := [], responses := [], poolsCreated := 0 }

/-- One atomic step of an `addRequest` call, with the suspension points of
the source as step boundaries.
Step 0 is the `crawlers.has(key)` check of line 203; a hit resolves the pool
and jumps to registration.  Step 1 is the construction work of
`createAndStartCrawler` (lines 18-192, several awaits): it allocates a fresh
pool and queue, or throws if proxy-configuration creation fails.  Step 2 is
`crawlers.set(key, crawler)` at line 193, which runs only after construction
completes.  Step 3 is `addResponse` at line 205 (registry insert, duplicate
keys rejected per section 4.2).  Step 4 is the `before queue add` timing
push at lines 207-210.  Step 5 is `requestQueue.addRequest` at line 211. -/
def stepProc (s : ServerState) (p : AdmProc) :
    ServerState × AdmProc × Option AdmEvent :=
  match p.pc with
  | 0 =>
    match assocFind p.cfgKey s.crawlers with
    | some pid =>
      (s, { p with pc := 3, poolId := some pid }, some (.poolResolved pid))
    | none => (s, { p with pc := 1 }, none)
  | 1 =>
    if p.createOk then
      let pid := s.poolsCreated
      let s2 := { s with queues := s.queues ++ [(pid, [])] }
      let s3 := { s2 with poolsCreated := s2.poolsCreated + 1 }
      (s3, { p with pc := 2, poolId := some pid }, some (.poolCreated pid))
    else (s, { p with pc := 9, failed := true }, some .creationFailed)
  | 2 =>
    match p.poolId with
    | some pid =>
      ({ s with crawlers := assocSet p.cfgKey pid s.crawlers },
       { p with pc := 3 }, some (.poolRegistered p.cfgKey pid))
    | none => (s, { p with pc := 9, failed := true }, none)
  | 3 =>
    if (assocFind p.uniqueKey s.responses).isSome then
      (s, { p with pc := 9, failed := true },
       some (.duplicateKey p.uniqueKey))
    else
      ({ s with responses := s.responses ++ [(p.uniqueKey, p.channel)] },
       { p with pc := 4 }, some (.channelRegistered p.uniqueKey))
  | 4 =>
    if p.hasUserData then
      (s, { p with pc := 5 }, some (.timingAppended "before queue add"))
    else (s, { p with pc := 5 }, none)
  | 5 =>
    match p.poolId with
    | some pid =>
      ({ s with queues := enqueueKey pid p.uniqueKey s.queues },
       { p with pc := 6 }, some (.enqueued pid p.uniqueKey))
    | none => (s, { p with pc := 9, failed := true }, none)
  | _ => (s, p, none)

/-- One scheduler step over two concurrent admission calls: `false` advances
the first call, `true` the second. -/
def schedStep (s : ServerState) (p0 p1 : AdmProc) (turn : Bool) :
    ServerState × AdmProc × AdmProc :=
  if turn then
    match stepProc s p1 with
    | (s2, q, _) => (s2, p0, q)
  else
    match stepProc s p0 with
    | (s2, q, _) => (s2, q, p1)

/-- Run two concurrent admission calls under an explicit interleaving. -/
def runSched : List Bool → ServerState → AdmProc → AdmProc →
    ServerState × AdmProc × AdmProc
  | [], s, p0, p1 => (s, p0, p1)
  | turn :: rest, s, p0, p1 =>
    match schedStep s p0 p1 turn with
    | (s2, q0, q1) => runSched rest s2 q0 q1

/-- Run a single admission call for a number of steps, collecting the trace
of its observable actions. -/
def runSolo : Nat → ServerState → AdmProc →
    ServerState × AdmProc × List AdmEvent
  | 0, s, p => (s, p, [])
  | n + 1, s, p =>
    match stepProc s p with
    | (s2, p2, ev) =>
      match runSolo n s2 p2 with
      | (s3, p3, evs) => (s3, p3, ev.toList ++ evs)

/-- Folding a list of pushes over a timing ledger; the ledger is touched only
through `pushTimeMeasure`. -/
def applyPushes : List TimeMeasure → List (String × Nat) → List TimeMeasure
  | tm, [] => tm
  | tm, p :: rest => applyPushes (pushTimeMeasure tm p.1 p.2) rest

/-- The events of a job stamped with the clock reading at their append
step. -/
def stampedEvents (clock : Nat → Nat) : List String → Nat → List (String × Nat)
  | [], _ => []
  | e :: rest, i => (e, clock i) :: stampedEvents clock rest (i + 1)

/-- The ledger a job accumulates when its lifecycle appends the given events
in order, reading `Date.now()` at each step. -/
def ledgerOf (clock : Nat → Nat) (events : List String) : List TimeMeasure :=
  applyPushes [] (stampedEvents clock events 0)

/-- Whether the timestamps of a ledger are non-decreasing in append order. -/
def nondecB : List TimeMeasure → Bool
  | [] => true
  | [_] => true
  | a :: b :: rest => decide (a.time ≤ b.time) && nondecB (b :: rest)

/-- A concrete job used as a test fixture: structured result mode, no prior
errors, no prior timing entries. -/
def cexRequest : Request :=
  { uniqueKey := "a", url := "https://x", retryCount := 0,
    skipNavigation := false,
    userData :=
      { requestDetails :=
          { requestErrors := [], responseHeaders := none, xhr := [] },
        jsonResponse := true, inputtedUrl := "https://x",
        parsedInputtedParams := "", timeMeasures := [],
        transparentStatusCode := false, nonbrowserRequestStatus := none } }

/-- The fixture job driven through two failing attempts, which exhausts the
retry budget of one. -/
def cexRun : JobResult :=
  runJob none none cexRequest [(.thrown "boom1", 5), (.thrown "boom2", 9)]

/-- An interleaving in which both admission calls pass the `crawlers.has`
check before either construction has reached `crawlers.set`: the first call
takes one step, the second takes one step, then each runs to completion. -/
def racySched : List Bool :=
  [false, true, false, false, false, false, false, true, true, true, true,
   true]

/-- Two admission calls with identical configuration fingerprints racing
through `racySched` from the empty state. -/
def racyRun : ServerState × AdmProc × AdmProc :=
  runSched racySched emptyServerState (mkAdmProc "cfg" "u1" 1 true true)
    (mkAdmProc "cfg" "u2" 2 true true)

/-- The fully sequential interleaving: the first admission call runs to
completion before the second starts. -/
def seqSched : List Bool :=
  [false, false, false, false, false, false, true, true, true, true, true,
   true]

/-- Two admission calls with the same configuration fingerprint run
sequentially from the empty state. -/
def seqRun (cfg u1 u2 : String) (ch1 ch2 : Nat) :
    ServerState × AdmProc × AdmProc :=
  runSched seqSched emptyServerState (mkAdmProc cfg u1 ch1 true true)
    (mkAdmProc cfg u2 ch2 true true)

end SuperScraper

namespace SuperScraper

/-- Claim C3: on terminal failure the status code sent to the caller is 500,
except when the configuration enabled transparent status codes and an
upstream status is known (a nonzero status taken from
`nonbrowserRequestStatus` for skip-navigation jobs and from the final
response otherwise), in which case that upstream status is sent. -/
theorem claim_c3_failed_status_code :
    (∀ req responseStatus pageCookies errMessage,
      (failedRequestHandler req responseStatus pageCookies
        errMessage).2.statusCode =
        failedStatusCode req.userData.transparentStatusCode
          (failedResponseStatusCode req.skipNavigation
            req.userData.nonbrowserRequestStatus responseStatus)) ∧
    (∀ skip nb resp, failedStatusCode false
        (failedResponseStatusCode skip nb resp) = 500) ∧
    (∀ skip nb resp,
      jsTruthy (failedResponseStatusCode skip nb resp) = false →
      failedStatusCode true (failedResponseStatusCode skip nb resp) = 500) ∧
    (∀ resp s, s ≠ 0 →
      failedStatusCode true
        (failedResponseStatusCode true (some s) resp) = s) ∧
    (∀ nb s, s ≠ 0 →
      failedStatusCode true
        (failedResponseStatusCode false nb (some s)) = s) := by
  refine ⟨fun req responseStatus pageCookies errMessage => rfl,
    fun skip nb resp => rfl, fun skip nb resp h => ?_,
    fun resp s hs => ?_, fun nb s hs => ?_⟩
  · simp [failedStatusCode, h]
  · simp [failedStatusCode, failedResponseStatusCode, jsTruthy, hs]
  · simp [failedStatusCode, failedResponseStatusCode, jsOrNull, jsTruthy, hs]

/-- Witness for C3 at concrete inputs. -/
theorem claim_c3_failed_status_code_witness :
    jsTruthy (failedResponseStatusCode false none none) = false ∧
    failedStatusCode true (failedResponseStatusCode false none none) = 500 ∧
    (403 : Nat) ≠ 0 ∧
    failedStatusCode true (failedResponseStatusCode true (some 403) none) = 403 ∧
    failedStatusCode true (failedResponseStatusCode false none (some 404)) = 404 := by
  refine ⟨by decide, claim_c3_failed_status_code.2.2.1 false none none (by decide),
    by decide,
    claim_c3_failed_status_code.2.2.2.1 none 403 (by decide),
    claim_c3_failed_status_code.2.2.2.2 none 404 (by decide)⟩

/-- Claim C4: on terminal failure of a job whose result mode requests the
structured envelope, the delivered payload is a `VerboseResult` whose body is
the error object, whose cookies and headers are the currently known ones, and
whose success-only fields are empty placeholders: `evaluateResults = []`,
`iframes = []`, `xhr = []`, `screenshot = none`, `resolvedUrl` empty. -/
theorem claim_c4_failed_verbose_envelope :
    ∀ req responseStatus pageCookies errMessage,
      req.userData.jsonResponse = true →
      ∃ v : VerboseResult,
        (failedRequestHandler req responseStatus pageCookies
          errMessage).2.payload = .verbose v ∧
        v.body = .err errMessage ∧
        v.cookies = pageCookies.getD [] ∧
        v.headers = req.userData.requestDetails.responseHeaders.getD [] ∧
        v.evaluateResults = [] ∧
        v.iframes = [] ∧
        v.xhr = [] ∧
        v.screenshot = none ∧
        v.resolvedUrl = "" ∧
        v.type = "json" ∧
        v.initialStatusCode =
          failedResponseStatusCode req.skipNavigation
            req.userData.nonbrowserRequestStatus responseStatus := by
  intro req responseStatus pageCookies errMessage hjson
  refine ⟨failedVerboseResult errMessage pageCookies
    { req.userData.requestDetails with
      requestErrors := req.userData.requestDetails.requestErrors ++
        [⟨req.retryCount + 1, errMessage⟩] }
    (failedResponseStatusCode req.skipNavigation
      req.userData.nonbrowserRequestStatus responseStatus), ?_, rfl, rfl, rfl,
    rfl, rfl, rfl, rfl, rfl, rfl, rfl⟩
  simp [failedRequestHandler, hjson]

end SuperScraper

namespace SuperScraper

theorem keyCount_zero_find (key : String) :
    ∀ st : List (String × Nat), keyCount key st = 0 →
      assocFind key st = none := by
  intro st
  induction st with
  | nil => intro _; rfl
  | cons e rest ih =>
    intro h
    by_cases he : e.1 = key
    · simp [keyCount, he] at h
    · simp [keyCount, he] at h
      simpa [assocFind, he] using ih h

theorem keyCount_removeKey (key : String) :
    ∀ st : List (String × Nat), keyCount key (removeKey key st) = 0 := by
  intro st
  induction st with
  | nil => rfl
  | cons e rest ih =>
    by_cases he : e.1 = key
    · simpa [removeKey, he] using ih
    · simpa [removeKey, keyCount, he] using ih

theorem find_of_keyCount_one (key : String) :
    ∀ st : List (String × Nat), keyCount key st = 1 →
      ∃ ch, assocFind key st = some ch := by
  intro st
  induction st with
  | nil => intro h; simp [keyCount] at h
  | cons e rest ih =>
    intro h
    by_cases he : e.1 = key
    · exact ⟨e.2, by simp [assocFind, he]⟩
    · simp [keyCount, he] at h
      simpa [assocFind, he] using ih h

theorem dispatchAll_absent (key : String) :
    ∀ (ps : List (Payload × Nat)) (st : List (String × Nat)),
      keyCount key st = 0 → dispatchAll key ps st = (st, 0) := by
  intro ps
  induction ps with
  | nil => intro st _; rfl
  | cons a rest ih =>
    intro st h
    obtain ⟨p, sc⟩ := a
    simp [dispatchAll, dispatch, keyCount_zero_find key st h, ih st h]

/-- Claim C2: for a job whose key is registered exactly once, any nonempty
sequence of terminal dispatch attempts writes exactly one delivery to its
channel, and a dispatch for a key whose entry was already consumed (absent
from the registry) is a silent no-op that leaves the registry unchanged and
writes nothing. -/
theorem claim_c2_exactly_once_delivery :
    (∀ (st : List (String × Nat)) key p s, assocFind key st = none →
      dispatch key p s st = (st, none)) ∧
    (∀ (st : List (String × Nat)) key (ps : List (Payload × Nat)),
      keyCount key st = 1 → ps ≠ [] → (dispatchAll key ps st).2 = 1) := by
  constructor
  · intro st key p s h
    simp [dispatch, h]
  · intro st key ps h hne
    match ps with
    | [] => exact absurd rfl hne
    | (p, sc) :: rest =>
      obtain ⟨ch, hch⟩ := find_of_keyCount_one key st h
      simp [dispatchAll, dispatch, hch,
        dispatchAll_absent key rest (removeKey key st)
          (keyCount_removeKey key st)]

/-- Witness for C2 at a concrete registry. -/
theorem claim_c2_exactly_once_delivery_witness :
    assocFind "k" ([] : List (String × Nat)) = none ∧
    dispatch "k" (.plainError "e") 500 [] = ([], none) ∧
    keyCount "k" [("k", 3)] = 1 ∧
    (dispatchAll "k" [(.plainError "e", 500), (.plainError "f", 500)]
      [("k", 3)]).2 = 1 := by
  refine ⟨by decide, claim_c2_exactly_once_delivery.1 [] "k"
    (.plainError "e") 500 (by decide), by decide,
    claim_c2_exactly_once_delivery.2 [("k", 3)] "k"
      [(.plainError "e", 500), (.plainError "f", 500)] (by decide)
      (by decide)⟩

/-- Claim C7: registering a channel under a key that is still registered
fails with DuplicateKeyError, and a successful registration is only possible
when the key was absent, in which case the prior entries are kept intact and
the new entry appended; no silent overwrite exists. -/
theorem claim_c7_duplicate_key_rejected :
    (∀ key ch (st : List (String × Nat)), (assocFind key st).isSome = true →
      register key ch st = .error "DuplicateKeyError") ∧
    (∀ key ch (st st2 : List (String × Nat)), register key ch st = .ok st2 →
      assocFind key st = none ∧ st2 = st ++ [(key, ch)]) := by
  constructor
  · intro key ch st h
    simp [register, h]
  · intro key ch st st2 h
    cases hfind : assocFind key st with
    | some ch2 => simp [register, hfind] at h
    | none =>
      simp [register, hfind] at h
      exact ⟨rfl, h.symm⟩

/-- Witness for C7 at a concrete registry. -/
theorem claim_c7_duplicate_key_rejected_witness :
    (assocFind "a" [("a", 1)]).isSome = true ∧
    register "a" 2 [("a", 1)] = .error "DuplicateKeyError" ∧
    register "b" 2 [("a", 1)] = .ok [("a", 1), ("b", 2)] ∧
    assocFind "b" [("a", 1)] = none := by
  refine ⟨by decide, claim_c7_duplicate_key_rejected.1 "a" 2 [("a", 1)]
    (by decide), rfl,
    (claim_c7_duplicate_key_rejected.2 "b" 2 [("a", 1)] [("a", 1), ("b", 2)]
      rfl).1⟩

/-- Counterexample to claim C5 as stated: driving the fixture job through two
failing attempts (the second exhausts the retry budget) appends two error-log
entries but only one error timing event, so the final failed attempt does not
receive an error ledger event. -/
theorem claim_c5_counterexample :
    resultIsFailed cexRun = true ∧
    (resultErrors cexRun).length = 2 ∧
    countEvent "error" (resultTimeMeasures cexRun) = 1 := by
  decide

/-- Claim C5 (amended): every failed attempt appends an error-log entry with
attempt number retryCount plus one; an error timing event is appended only on
failed attempts that will be retried, not on the final attempt; delivery to
the caller happens only when retries are exhausted, never on an intermediate
failed attempt. -/
theorem claim_c5_error_recording :
    ∀ (req : Request) (m1 m2 : String) (t1 t2 : Nat) resp cookies,
      req.retryCount = 0 →
      (resultSend (runJob resp cookies req [(.thrown m1, t1)]) = none ∧
       resultErrors (runJob resp cookies req [(.thrown m1, t1)]) =
         req.userData.requestDetails.requestErrors ++ [⟨1, m1⟩] ∧
       resultTimeMeasures (runJob resp cookies req [(.thrown m1, t1)]) =
         req.userData.timeMeasures ++ [⟨"error", t1⟩]) ∧
      (resultIsFailed
         (runJob resp cookies req [(.thrown m1, t1), (.thrown m2, t2)]) =
           true ∧
       resultErrors
         (runJob resp cookies req [(.thrown m1, t1), (.thrown m2, t2)]) =
           req.userData.requestDetails.requestErrors ++ [⟨1, m1⟩, ⟨2, m2⟩] ∧
       resultTimeMeasures
         (runJob resp cookies req [(.thrown m1, t1), (.thrown m2, t2)]) =
           req.userData.timeMeasures ++ [⟨"error", t1⟩] ∧
       resultSend
         (runJob resp cookies req [(.thrown m1, t1), (.thrown m2, t2)]) ≠
           none) := by
  intro req m1 m2 t1 t2 resp cookies h0
  refine ⟨⟨?_, ?_, ?_⟩, ?_, ?_, ?_, ?_⟩ <;>
    simp [runJob, maxRequestRetries, h0, errorHandler, bumpRetry,
      failedRequestHandler, pushTimeMeasure, resultSend, resultErrors,
      resultTimeMeasures, resultRequest, resultIsFailed]

/-- Witness for C5 (amended) at the fixture job. -/
theorem claim_c5_error_recording_witness :
    cexRequest.retryCount = 0 ∧
    resultSend (runJob none none cexRequest [(.thrown "boom1", 5)]) = none ∧
    resultErrors (runJob none none cexRequest
      [(.thrown "boom1", 5), (.thrown "boom2", 9)]) =
      cexRequest.userData.requestDetails.requestErrors ++
        [⟨1, "boom1"⟩, ⟨2, "boom2"⟩] := by
  refine ⟨rfl, ?_, ?_⟩
  · exact (claim_c5_error_recording cexRequest "boom1" "boom2" 5 9 none none
      rfl).1.1
  · exact (claim_c5_error_recording cexRequest "boom1" "boom2" 5 9 none none
      rfl).2.2.1

theorem runJob_retry_invariant (resp : Option Nat)
    (cookies : Option (List String)) :
    ∀ (outcomes : List (AttemptOutcome × Nat)) (req : Request),
      req.retryCount ≤ maxRequestRetries →
      req.userData.requestDetails.requestErrors.length = req.retryCount →
      resultRetryCount (runJob resp cookies req outcomes) ≤
        maxRequestRetries ∧
      ∀ r s, runJob resp cookies req outcomes = .failed r s →
        r.userData.requestDetails.requestErrors.length = r.retryCount + 1 := by
  intro outcomes
  induction outcomes with
  | nil =>
    intro req h1 h2
    refine ⟨by simpa [runJob, resultRetryCount, resultRequest] using h1, ?_⟩
    intro r s h
    simp [runJob] at h
  | cons o rest ih =>
    intro req h1 h2
    obtain ⟨out, t⟩ := o
    cases out with
    | ok =>
      refine ⟨by simpa [runJob, resultRetryCount, resultRequest] using h1, ?_⟩
      intro r s h
      simp [runJob] at h
    | thrown msg =>
      by_cases hr : req.retryCount < maxRequestRetries
      · have hstep := ih (bumpRetry (errorHandler t req msg))
          (by simpa [bumpRetry, errorHandler] using hr)
          (by simp [bumpRetry, errorHandler, h2])
        refine ⟨?_, ?_⟩
        · simpa [runJob, hr] using hstep.1
        · intro r s h
          exact hstep.2 r s (by simpa [runJob, hr] using h)
      · refine ⟨?_, ?_⟩
        · simp [runJob, hr, failedRequestHandler, resultRetryCount,
            resultRequest]
          exact h1
        · intro r s h
          simp [runJob, hr, failedRequestHandler] at h
          obtain ⟨hre, -⟩ := h
          subst hre
          simp [h2]

/-- Claim C6: the retry count never exceeds the configured maximum of one
(at most two total attempts), and on terminal failure the error-log length
equals the retry count at failure plus one. -/
theorem claim_c6_retry_bound :
    ∀ resp cookies (req : Request) outcomes,
      req.retryCount = 0 →
      req.userData.requestDetails.requestErrors = [] →
      maxRequestRetries = 1 ∧
      resultRetryCount (runJob resp cookies req outcomes) ≤
        maxRequestRetries ∧
      ∀ r s, runJob resp cookies req outcomes = .failed r s →
        r.userData.requestDetails.requestErrors.length = r.retryCount + 1 := by
  intro resp cookies req outcomes h1 h2
  have h := runJob_retry_invariant resp cookies outcomes req
    (by simp [h1, maxRequestRetries]) (by simp [h1, h2])
  exact ⟨rfl, h.1, h.2⟩

/-- Witness for C6 at the fixture job and two failing attempts. -/
theorem claim_c6_retry_bound_witness :
    cexRequest.retryCount = 0 ∧
    cexRequest.userData.requestDetails.requestErrors = [] ∧
    resultRetryCount (runJob none none cexRequest
      [(.thrown "boom1", 5), (.thrown "boom2", 9)]) ≤ maxRequestRetries := by
  refine ⟨rfl, rfl, ?_⟩
  exact (claim_c6_retry_bound none none cexRequest
    [(.thrown "boom1", 5), (.thrown "boom2", 9)] rfl rfl).2.1

end SuperScraper

namespace SuperScraper

/-- Counterexample to claim C1 as stated: under a concurrent interleaving in
which the second admission checks the pool map while the first construction
is still in flight, two pools are created for the same configuration
fingerprint and the two jobs are enqueued into different pools. -/
theorem claim_c1_counterexample :
    racyRun.1.poolsCreated = 2 ∧
    assocFind 0 racyRun.1.queues = some ["u1"] ∧
    assocFind 1 racyRun.1.queues = some ["u2"] ∧
    assocFind "cfg" racyRun.1.crawlers = some 1 := by
  decide

theorem runSched_append :
    ∀ (l1 l2 : List Bool) (s : ServerState) (p0 p1 : AdmProc),
      runSched (l1 ++ l2) s p0 p1 =
        runSched l2 (runSched l1 s p0 p1).1 (runSched l1 s p0 p1).2.1
          (runSched l1 s p0 p1).2.2 := by
  intro l1
  induction l1 with
  | nil => intro l2 s p0 p1; rfl
  | cons t rest ih =>
    intro l2 s p0 p1
    rcases hstep : schedStep s p0 p1 t with ⟨s1, q0, q1⟩
    simp [runSched, hstep, ih]

theorem runSched_rep_false :
    ∀ (n : Nat) (s : ServerState) (p0 p1 : AdmProc),
      runSched (List.replicate n false) s p0 p1 =
        ((runSolo n s p0).1, (runSolo n s p0).2.1, p1) := by
  intro n
  induction n with
  | zero => intro s p0 p1; rfl
  | succ n ih =>
    intro s p0 p1
    rcases hstep : stepProc s p0 with ⟨s1, q1, ev⟩
    rcases hrec : runSolo n s1 q1 with ⟨s2, q2, evs⟩
    have h1 : runSched (List.replicate (n + 1) false) s p0 p1 =
        runSched (List.replicate n false) s1 q1 p1 := by
      simp [List.replicate, runSched, schedStep, hstep]
    rw [h1, ih]
    simp [runSolo, hstep, hrec]

theorem runSched_rep_true :
    ∀ (n : Nat) (s : ServerState) (p0 p1 : AdmProc),
      runSched (List.replicate n true) s p0 p1 =
        ((runSolo n s p1).1, p0, (runSolo n s p1).2.1) := by
  intro n
  induction n with
  | zero => intro s p0 p1; rfl
  | succ n ih =>
    intro s p0 p1
    rcases hstep : stepProc s p1 with ⟨s1, q1, ev⟩
    rcases hrec : runSolo n s1 q1 with ⟨s2, q2, evs⟩
    have h1 : runSched (List.replicate (n + 1) true) s p0 p1 =
        runSched (List.replicate n true) s1 p0 q1 := by
      simp [List.replicate, runSched, schedStep, hstep]
    rw [h1, ih]
    simp [runSolo, hstep, hrec]

theorem soloCreate_state (cfg u : String) (ch : Nat) :
    runSolo 6 emptyServerState (mkAdmProc cfg u ch true true) =
      ({ crawlers := [(cfg, 0)], queues := [(0, [u])],
         responses := [(u, ch)], poolsCreated := 1 },
       { mkAdmProc cfg u ch true true with pc := 6, poolId := some 0 },
       [.poolCreated 0, .poolRegistered cfg 0, .channelRegistered u,
        .timingAppended "before queue add", .enqueued 0 u]) := by
  simp [runSolo, stepProc, mkAdmProc, emptyServerState, assocFind,
    assocSet, enqueueKey, List.contains]

theorem soloReuse_state (cfg u1 u2 : String) (ch1 ch2 : Nat) (h : u1 ≠ u2) :
    runSolo 6
      { crawlers := [(cfg, 0)], queues := [(0, [u1])],
        responses := [(u1, ch1)], poolsCreated := 1 }
      (mkAdmProc cfg u2 ch2 true true) =
      ({ crawlers := [(cfg, 0)], queues := [(0, [u1, u2])],
         responses := [(u1, ch1), (u2, ch2)], poolsCreated := 1 },
       { mkAdmProc cfg u2 ch2 true true with pc := 6, poolId := some 0 },
       [.poolResolved 0, .channelRegistered u2,
        .timingAppended "before queue add", .enqueued 0 u2]) := by
  simp [runSolo, stepProc, mkAdmProc, assocFind, assocSet, enqueueKey,
    List.contains, h, Ne.symm h]

theorem seqRun_state (cfg u1 u2 : String) (ch1 ch2 : Nat) (h : u1 ≠ u2) :
    (seqRun cfg u1 u2 ch1 ch2).1 =
      { crawlers := [(cfg, 0)], queues := [(0, [u1, u2])],
        responses := [(u1, ch1), (u2, ch2)], poolsCreated := 1 } := by
  have hseq : seqSched = List.replicate 6 false ++ List.replicate 6 true :=
    rfl
  simp only [seqRun, hseq, runSched_append, runSched_rep_false,
    runSched_rep_true, soloCreate_state cfg u1 ch1]
  simp [soloReuse_state cfg u1 u2 ch1 ch2 h]

/-- Claim C1 (amended): when the second admission with an equal configuration
fingerprint starts only after the first has completed its construction,
exactly one pool is created, the fingerprint maps to it, and both jobs are
enqueued into that same pool; the single-flight guarantee does not hold for
admissions that race with an in-flight construction, because the pool map is
updated only after construction completes. -/
theorem claim_c1_pool_reuse :
    ∀ (cfg u1 u2 : String) (ch1 ch2 : Nat), u1 ≠ u2 →
      (seqRun cfg u1 u2 ch1 ch2).1.poolsCreated = 1 ∧
      assocFind cfg (seqRun cfg u1 u2 ch1 ch2).1.crawlers = some 0 ∧
      assocFind 0 (seqRun cfg u1 u2 ch1 ch2).1.queues = some [u1, u2] ∧
      assocFind u1 (seqRun cfg u1 u2 ch1 ch2).1.responses = some ch1 ∧
      assocFind u2 (seqRun cfg u1 u2 ch1 ch2).1.responses = some ch2 := by
  intro cfg u1 u2 ch1 ch2 h
  rw [seqRun_state cfg u1 u2 ch1 ch2 h]
  refine ⟨rfl, ?_, ?_, ?_, ?_⟩ <;> simp [assocFind, h, Ne.symm h]

/-- Witness for C1 (amended) at concrete keys. -/
theorem claim_c1_pool_reuse_witness :
    ("u1" : String) ≠ "u2" ∧
    (seqRun "cfg" "u1" "u2" 1 2).1.poolsCreated = 1 ∧
    assocFind 0 (seqRun "cfg" "u1" "u2" 1 2).1.queues = some ["u1", "u2"] := by
  refine ⟨by decide, ?_, ?_⟩
  · exact (claim_c1_pool_reuse "cfg" "u1" "u2" 1 2 (by decide)).1
  · exact (claim_c1_pool_reuse "cfg" "u1" "u2" 1 2 (by decide)).2.2.1

/-- Claim C8: an admission call performs, in order, pool resolution (or
creation and registration of a fresh pool), registration of the response
channel under the job unique key, the append of a before-queue-add timing
event, and the enqueue of the job; it completes once enqueued, leaving the
channel registered and pending. -/
theorem claim_c8_admission_order :
    (∀ (cfg u : String) (ch : Nat) (s : ServerState) (pid : Nat),
      assocFind cfg s.crawlers = some pid →
      (assocFind u s.responses).isSome = false →
      (runSolo 6 s (mkAdmProc cfg u ch true true)).2.2 =
        [.poolResolved pid, .channelRegistered u,
         .timingAppended "before queue add", .enqueued pid u] ∧
      (runSolo 6 s (mkAdmProc cfg u ch true true)).1.responses =
        s.responses ++ [(u, ch)] ∧
      (runSolo 6 s (mkAdmProc cfg u ch true true)).2.1.pc = 6) ∧
    (∀ (cfg u : String) (ch : Nat) (s : ServerState),
      assocFind cfg s.crawlers = none →
      (assocFind u s.responses).isSome = false →
      (runSolo 6 s (mkAdmProc cfg u ch true true)).2.2 =
        [.poolCreated s.poolsCreated, .poolRegistered cfg s.poolsCreated,
         .channelRegistered u, .timingAppended "before queue add",
         .enqueued s.poolsCreated u] ∧
      (runSolo 6 s (mkAdmProc cfg u ch true true)).1.responses =
        s.responses ++ [(u, ch)] ∧
      (runSolo 6 s (mkAdmProc cfg u ch true true)).2.1.pc = 6) := by
  constructor
  · intro cfg u ch s pid hc hr
    refine ⟨?_, ?_, ?_⟩ <;> simp [runSolo, stepProc, mkAdmProc, hc, hr]
  · intro cfg u ch s hc hr
    refine ⟨?_, ?_, ?_⟩ <;> simp [runSolo, stepProc, mkAdmProc, hc, hr]

/-- Witness for C8 from the empty state. -/
theorem claim_c8_admission_order_witness :
    assocFind "cfg" emptyServerState.crawlers = none ∧
    (assocFind "u" emptyServerState.responses).isSome = false ∧
    (runSolo 6 emptyServerState (mkAdmProc "cfg" "u" 7 true true)).2.2 =
      [.poolCreated 0, .poolRegistered "cfg" 0, .channelRegistered "u",
       .timingAppended "before queue add", .enqueued 0 "u"] := by
  refine ⟨by decide, by decide, ?_⟩
  exact (claim_c8_admission_order.2 "cfg" "u" 7 emptyServerState (by decide)
    (by decide)).1

/-- Claim C10: when pool construction fails inside an admission call (for
example proxy-configuration creation throws), the shared state is left
completely unchanged: no pool is registered, no response channel is
registered under the job unique key, and nothing is enqueued. -/
theorem claim_c10_failed_creation_no_effects :
    ∀ (cfg u : String) (ch : Nat) (s : ServerState),
      assocFind cfg s.crawlers = none →
      (runSolo 6 s (mkAdmProc cfg u ch true false)).1 = s ∧
      (runSolo 6 s (mkAdmProc cfg u ch true false)).2.2 =
        [.creationFailed] ∧
      (runSolo 6 s (mkAdmProc cfg u ch true false)).2.1.failed = true := by
  intro cfg u ch s hc
  refine ⟨?_, ?_, ?_⟩ <;> simp [runSolo, stepProc, mkAdmProc, hc]

/-- Witness for C10 from the empty state. -/
theorem claim_c10_failed_creation_no_effects_witness :
    assocFind "cfg" emptyServerState.crawlers = none ∧
    (runSolo 6 emptyServerState (mkAdmProc "cfg" "u" 7 true false)).1 =
      emptyServerState := by
  refine ⟨by decide, ?_⟩
  exact (claim_c10_failed_creation_no_effects "cfg" "u" 7 emptyServerState
    (by decide)).1

theorem applyPushes_eq :
    ∀ (ps : List (String × Nat)) (tm : List TimeMeasure),
      applyPushes tm ps = tm ++ ps.map (fun p => TimeMeasure.mk p.1 p.2) := by
  intro ps
  induction ps with
  | nil => intro tm; simp [applyPushes]
  | cons p rest ih => intro tm; simp [applyPushes, pushTimeMeasure, ih]

theorem stampedEvents_append (clock : Nat → Nat) :
    ∀ (evs more : List String) (i : Nat),
      stampedEvents clock (evs ++ more) i =
        stampedEvents clock evs i ++
          stampedEvents clock more (i + evs.length) := by
  intro evs
  induction evs with
  | nil => intro more i; simp [stampedEvents]
  | cons e rest ih =>
    intro more i
    simp [stampedEvents, ih]
    ring_nf

theorem nondec_stamped (clock : Nat → Nat) (hm : Monotone clock) :
    ∀ (evs : List String) (i : Nat),
      nondecB ((stampedEvents clock evs i).map
        (fun p => TimeMeasure.mk p.1 p.2)) = true := by
  intro evs
  induction evs with
  | nil => intro i; rfl
  | cons e rest ih =>
    intro i
    cases rest with
    | nil => rfl
    | cons e2 rest2 =>
      have h1 : clock i ≤ clock (i + 1) := hm (Nat.le_succ i)
      have h2 := ih (i + 1)
      simp [stampedEvents, nondecB] at h2 ⊢
      exact ⟨h1, h2⟩

/-- Claim C9: the timing ledger is append-only (folding pushes over a ledger
extends it on the right, never altering or dropping existing entries, and
extending the event history extends the ledger on the right), and when the
clock read at successive appends is monotone the timestamps are
non-decreasing in append order, so append order equals chronological
order. -/
theorem claim_c9_ledger_append_monotone :
    (∀ (tm : List TimeMeasure) (ps : List (String × Nat)),
      applyPushes tm ps = tm ++ ps.map (fun p => TimeMeasure.mk p.1 p.2)) ∧
    (∀ (clock : Nat → Nat) (evs more : List String),
      ledgerOf clock (evs ++ more) =
        ledgerOf clock evs ++
          (stampedEvents clock more evs.length).map
            (fun p => TimeMeasure.mk p.1 p.2)) ∧
    (∀ (clock : Nat → Nat), Monotone clock →
      ∀ evs, nondecB (ledgerOf clock evs) = true) := by
  refine ⟨fun tm ps => applyPushes_eq ps tm, ?_, ?_⟩
  · intro clock evs more
    simp [ledgerOf, applyPushes_eq, stampedEvents_append]
  · intro clock hm evs
    simpa [ledgerOf, applyPushes_eq] using nondec_stamped clock hm evs 0

/-- Witness for C9 with the identity clock. -/
theorem claim_c9_ledger_append_monotone_witness :
    Monotone (fun n : Nat => n) ∧
    nondecB (ledgerOf (fun n : Nat => n)
      ["pre-navigation hook", "crawlee internal request handler", "error"]) =
      true := by
  refine ⟨fun a b hab => hab, ?_⟩
  exact claim_c9_ledger_append_monotone.2.2 (fun n => n)
    (fun a b hab => hab)
    ["pre-navigation hook", "crawlee internal request handler", "error"]

end SuperScraper

namespace SuperScraper

/-- Witness for C4 at the fixture job. -/
theorem claim_c4_failed_verbose_envelope_witness :
    cexRequest.userData.jsonResponse = true ∧
    ∃ v : VerboseResult,
      (failedRequestHandler cexRequest none none "boom").2.payload =
        .verbose v ∧
      v.body = .err "boom" ∧
      v.cookies = (none : Option (List String)).getD [] ∧
      v.headers = cexRequest.userData.requestDetails.responseHeaders.getD [] ∧
      v.evaluateResults = [] ∧
      v.iframes = [] ∧
      v.xhr = [] ∧
      v.screenshot = none ∧
      v.resolvedUrl = "" ∧
      v.type = "json" ∧
      v.initialStatusCode =
        failedResponseStatusCode cexRequest.skipNavigation
          cexRequest.userData.nonbrowserRequestStatus none :=
  ⟨rfl, claim_c4_failed_verbose_envelope cexRequest none none "boom" rfl⟩

end SuperScraper
